import Mathlib

/-!
Shallow embedding of the animation and ranking engine of
`src/components/BrachistochroneDemo.tsx`.

The component's state hooks become the fields of `DemoState`; the event
handlers (`handleStartAnimation`, `handlePauseAnimation`,
`handleResumeAnimation`, `handleResetAnimation`) and the two slider setters
(`setAnimationSpeed`, `setCycloidParameter`) become state transformers; the
relevant computations of `drawFrame` (elapsed-time advance, per-curve
progress, the ranking sort, the displayed-time formatting, and the set of
marker draw calls) become pure functions of the state and the frame
timestamp.  Wall-clock timestamps, elapsed seconds and the slider values are
modelled as rationals; the curve position functions, which use `Math.sin`,
`Math.cos` and `Math.PI`, are modelled over the reals.
-/

namespace BrachDemo

/-- Lifecycle phase: the values of the component state `animationState`
(line 9 of the source): `idle`, `running` or `paused`.  The
spec's idle-complete phase is `idle` together with `isAnimationComplete`. -/
inductive Phase
  | idle
  | running
  | paused
deriving DecidableEq, Repr

/-- The component's state: the `useState` hooks and the two `useRef` cells
(`startTimeRef`, `lastTimestampRef`) of `BrachistochroneDemo`.
`elapsedTimes` is the record of formatted time strings keyed by curve name,
modelled as an association list. -/
structure DemoState where
  animationState : Phase
  animationSpeed : ℚ
  cycloidParameter : ℚ
  elapsedTimes : List (String × String)
  rankings : List String
  prevRankings : List String
  startTime : Option ℚ
  isAnimationComplete : Bool
  pausedElapsedTime : ℚ
  lastTimestamp : Option ℚ
deriving DecidableEq, Repr

/-- The initial state given by the `useState` / `useRef` initialisers
(lines 8-18 of the source). -/
def initialState : DemoState where
  animationState := Phase.idle
  animationSpeed := 1/2
  cycloidParameter := 1/5
  elapsedTimes := []
  rankings := []
  prevRankings := []
  startTime := none
  isAnimationComplete := false
  pausedElapsedTime := 0
  lastTimestamp := none

/-- The curve registry (the `curves` object literal, lines 20-49): the
curve names in object-literal (registry) order, each with its nominal
duration `time`.  `p` is the live `cycloidParameter`; only the
Parametric Cycloid's duration, `2.0 * (1 + cycloidParameter)`, depends
on it. -/
def curves (p : ℚ) : List (String × ℚ) :=
  [("Brachistochrone", 2),
   ("Straight Line", 5/2),
   ("Parabola", 21/10),
   ("Parametric Cycloid", 2 * (1 + p))]

/-- Duration lookup in the registry: `curves[label].time`.  Absent labels
(which do not occur in the component) default to 0. -/
def curveTime (p : ℚ) (label : String) : ℚ :=
  (((curves p).find? (fun c => c.1 == label)).map Prod.snd).getD 0

/-- Position function of the Brachistochrone entry (lines 22-25):
`theta = t * PI`, position `[(theta - sin theta) / PI, (1 - cos theta) / 2]`. -/
noncomputable def brachistochroneFunc (t : ℝ) : ℝ × ℝ :=
  ((t * Real.pi - Real.sin (t * Real.pi)) / Real.pi,
   (1 - Real.cos (t * Real.pi)) / 2)

/-- Position function of the Straight Line entry (line 30): `[t, t]`. -/
def straightLineFunc (t : ℝ) : ℝ × ℝ := (t, t)

/-- Position function of the Parabola entry (line 35): `[t, t * (2 - t)]`. -/
def parabolaFunc (t : ℝ) : ℝ × ℝ := (t, t * (2 - t))

/-- Position function of the Parametric Cycloid entry (lines 40-45):
`[t - sin(PI t)/PI, (1 - cos(PI t))/2 + p * sin(PI t)^2]` where `p` is the
live `cycloidParameter`. -/
noncomputable def parametricCycloidFunc (p : ℝ) (t : ℝ) : ℝ × ℝ :=
  (t - Real.sin (Real.pi * t) / Real.pi,
   (1 - Real.cos (Real.pi * t)) / 2 + p * Real.sin (Real.pi * t) ^ 2)

/-- JavaScript `o || d` for a nullable number `o`: both `null` and `0` are
falsy, so the default `d` is taken for either. -/
def jsOr (o : Option ℚ) (d : ℚ) : ℚ :=
  match o with
  | none => d
  | some x => if x = 0 then d else x

/-- The initialisation at the top of `drawFrame` (lines 141-144): on the
first frame after `startTimeRef` was nulled, both refs are set to the
frame's own timestamp. -/
def frameInit (s : DemoState) (t : ℚ) : DemoState :=
  if s.startTime = none then
    { s with startTime := some t, lastTimestamp := some t }
  else s

/-- The `elapsedTime` computed by `drawFrame` (lines 146-153): while
`running`, `pausedElapsedTime + (timestamp - (lastTimestampRef.current ||
timestamp)) / 1000 * animationSpeed`; otherwise the frozen
`pausedElapsedTime`. -/
def frameElapsed (s : DemoState) (t : ℚ) : ℚ :=
  if s.animationState = Phase.running then
    s.pausedElapsedTime + (t - jsOr s.lastTimestamp t) / 1000 * s.animationSpeed
  else
    s.pausedElapsedTime

/-- Per-curve progress (lines 163 and 176): `min(elapsedTime / time, 1)`. -/
def jsProgress (elapsed timeVal : ℚ) : ℚ :=
  min (elapsed / timeVal) 1

/-- The `progressData` array (lines 175-179): `[label, progress, 0]`
triples in registry order; the third component, meant as the distance to
the endpoint, is the constant `0`. -/
def progressData (p e : ℚ) : List (String × ℚ × ℚ) :=
  (curves p).map (fun c => (c.1, jsProgress e c.2, 0))

/-- The `progressData.sort((a, b) => a[2] - b[2])` call (line 182):
`Array.prototype.sort` is a stable sort, and the comparator orders by the
third component ascending, so it is embedded as a stable sort by
`a.2.2 ≤ b.2.2`. -/
def sortByDistance (pd : List (String × ℚ × ℚ)) : List (String × ℚ × ℚ) :=
  List.insertionSort (fun a b => a.2.2 ≤ b.2.2) pd

/-- The per-frame ranking update on a progress snapshot (lines 175-185):
build `[label, progress, 0]` triples, stably sort them by the constant
third component, and read off the labels. -/
def rankingUpdate (snap : List (String × ℚ)) : List String :=
  (sortByDistance (snap.map (fun c => (c.1, c.2, 0)))).map Prod.fst

/-- The `newRankings` computed by `drawFrame` from the elapsed time. -/
def newRankings (p e : ℚ) : List String :=
  (sortByDistance (progressData p e)).map Prod.fst

/-- The rankings state update (lines 186-189): `rankings` and
`prevRankings` change only when the newly computed ranking differs from the
current one. -/
def applyRankings (s : DemoState) (newR : List String) : DemoState :=
  if newR ≠ s.rankings then
    { s with prevRankings := s.rankings, rankings := newR }
  else s

/-- JavaScript `Number.prototype.toFixed(2)` for a non-negative value:
round to two decimals and print with exactly two fraction digits. -/
def toFixed2 (q : ℚ) : String :=
  let m := (⌊q * 100 + 1/2⌋).toNat
  toString (m / 100) ++ "." ++ (if m % 100 < 10 then "0" else "") ++ toString (m % 100)

/-- The displayed time string per curve (line 195):
`progress < 1 ? elapsedTime.toFixed(2) : curves[label].time.toFixed(2)`. -/
def displayedTime (e timeVal : ℚ) : String :=
  if jsProgress e timeVal < 1 then toFixed2 e else toFixed2 timeVal

/-- The marker draw calls of `drawStaticElements` (lines 122-134): when the
animation is not running, one ball per curve at the position for progress 0. -/
def staticMarkers (s : DemoState) : List (String × ℚ) :=
  if s.animationState ≠ Phase.running then
    (curves s.cycloidParameter).map (fun c => (c.1, 0))
  else []

/-- One ball per curve at the progress-derived position for elapsed time
`e`: the animated-ball loop of `drawFrame` (lines 162-172), and again the
ball redraw inside the elapsed-times update (lines 197-205). -/
def movingMarkers (p e : ℚ) : List (String × ℚ) :=
  (curves p).map (fun c => (c.1, jsProgress e c.2))

/-- All marker draw calls of one `drawFrame` invocation, as
(label, progress) pairs: the static pass (which draws start balls whenever
the phase is not running), the animated-ball loop and the redraw inside the
elapsed-times update, the latter two both at the frame's elapsed time. -/
def drawFrameMarkers (s : DemoState) (t : ℚ) : List (String × ℚ) :=
  let e := frameElapsed (frameInit s t) t
  staticMarkers s ++ movingMarkers s.cycloidParameter e
    ++ movingMarkers s.cycloidParameter e

/-- The `handleStartAnimation` handler (lines 230-237). -/
def handleStartAnimation (s : DemoState) : DemoState :=
  { s with startTime := none, lastTimestamp := none, pausedElapsedTime := 0,
           animationState := Phase.running, elapsedTimes := [],
           isAnimationComplete := false }

/-- The `handlePauseAnimation` handler (lines 239-241). -/
def handlePauseAnimation (s : DemoState) : DemoState :=
  { s with animationState := Phase.paused }

/-- The `handleResumeAnimation` handler (lines 243-246): nulls
`lastTimestampRef` and returns to `running`. -/
def handleResumeAnimation (s : DemoState) : DemoState :=
  { s with lastTimestamp := none, animationState := Phase.running }

/-- The `handleResetAnimation` handler (lines 248-254): nulls both refs,
zeroes `pausedElapsedTime`, sets the phase to `idle` and empties
`elapsedTimes`.  It touches no other field. -/
def handleResetAnimation (s : DemoState) : DemoState :=
  { s with startTime := none, lastTimestamp := none, pausedElapsedTime := 0,
           animationState := Phase.idle, elapsedTimes := [] }

/-- The `setAnimationSpeed` state setter (line 10, invoked from the speed
slider's `onValueChange`, line 280): stores the given value, with no
validation and no phase check. -/
def setAnimationSpeed (s : DemoState) (v : ℚ) : DemoState :=
  { s with animationSpeed := v }

/-- The `setCycloidParameter` state setter (line 11, invoked from the
parameter slider's `onValueChange`, line 294): stores the given value, with
no validation and no phase check. -/
def setCycloidParameter (s : DemoState) (v : ℚ) : DemoState :=
  { s with cycloidParameter := v }

/-- Direction of a rank transition arrow in the rankings panel. -/
inductive RankMove
  | advanced
  | declined
deriving DecidableEq, Repr

/-- JavaScript `Array.prototype.indexOf`, returning `-1` when absent. -/
def jsIndexOf (l : List String) (x : String) : ℤ :=
  match l with
  | [] => -1
  | a :: as => if a = x then 0 else
      let r := jsIndexOf as x
      if r = -1 then -1 else r + 1

/-- The transition arrow shown for the rankings entry `label` at position
`index` (lines 347-358): an arrow is rendered iff the animation is not
complete and `prevRankings.indexOf(label) !== index`; it points up
(advanced) iff `prevRankings.indexOf(label) > index`, else down
(declined). -/
def transitionMarker (complete : Bool) (prev : List String) (label : String)
    (index : ℕ) : Option RankMove :=
  if complete = false ∧ jsIndexOf prev label ≠ (index : ℤ) then
    some (if jsIndexOf prev label > (index : ℤ) then RankMove.advanced
          else RankMove.declined)
  else none

/-- A relation that holds everywhere is pairwise on every list. -/
theorem pairwise_of_total {α : Type _} {r : α → α → Prop} (h : ∀ a b, r a b) :
    ∀ l : List α, l.Pairwise r := by
  intro l
  induction l with
  | nil => exact List.Pairwise.nil
  | cons a t ih => exact List.Pairwise.cons (fun b _ => h a b) ih

/-- The stable sort by the constant zero key leaves any mapped snapshot
unchanged: every comparator call compares `0 ≤ 0`. -/
theorem sortByDistance_map_eq (snap : List (String × ℚ)) :
    sortByDistance (snap.map (fun c => (c.1, c.2, (0:ℚ))))
      = snap.map (fun c => (c.1, c.2, (0:ℚ))) :=
  List.Sorted.insertionSort_eq
    (List.pairwise_map.mpr (pairwise_of_total (fun _ _ => le_refl 0) snap))

/-- Formatting the rational 5/2 with two decimals gives "2.50". -/
theorem toFixed2_five_halves : toFixed2 (5/2) = "2.50" := by
  have h : (⌊((5:ℚ)/2 * 100 + 1/2)⌋ : ℤ) = 250 := by norm_num [Int.floor_eq_iff]
  simp only [toFixed2]
  rw [h]
  decide

/-- Formatting the rational 2 with two decimals gives "2.00". -/
theorem toFixed2_two : toFixed2 2 = "2.00" := by
  have h : (⌊((2:ℚ) * 100 + 1/2)⌋ : ℤ) = 200 := by norm_num [Int.floor_eq_iff]
  simp only [toFixed2]
  rw [h]
  decide

/-- C1 counterexample: on the snapshot with X at progress 3/10 before Y at
progress 1/2, the per-frame ranking update returns [X, Y] even though Y's
progress is strictly greater, so the ranking is not ordered by strictly
descending progress. -/
theorem c1_counterexample :
    rankingUpdate [("X", 3/10), ("Y", 1/2)] = ["X", "Y"] ∧ (3:ℚ)/10 < 1/2 := by
  constructor
  · simp [rankingUpdate, sortByDistance, List.insertionSort, List.orderedInsert]
  · norm_num

/-- C1 (amended): the ranking update stably sorts by a constant zero key, so
for every progress snapshot the resulting ranking equals the registry
(input) order of the snapshot, whatever the progress values; in particular
ties keep registry order, and the snapshot [A:1/2, B:1/2, C:3/10] with A
before B yields the ranking [A, B, C]. -/
theorem c1_ranking_is_registry_order :
    (∀ snap : List (String × ℚ), rankingUpdate snap = snap.map Prod.fst)
      ∧ rankingUpdate [("A", 1/2), ("B", 1/2), ("C", 3/10)] = ["A", "B", "C"] := by
  have hall : ∀ snap : List (String × ℚ), rankingUpdate snap = snap.map Prod.fst := by
    intro snap
    unfold rankingUpdate
    rw [sortByDistance_map_eq]
    simp [List.map_map]
  exact ⟨hall, by rw [hall]; rfl⟩

/-- A concrete state reached after a completed run: paused aside, the
completion flag is set and a ranking has been recorded. -/
def completedRunState : DemoState :=
  { initialState with animationState := Phase.paused, isAnimationComplete := true,
                      rankings := ["Brachistochrone"] }

/-- C2 counterexample: resetting from a state whose run had completed and
produced a ranking leaves `isAnimationComplete` set and the ranking list
non-empty, so reset() does not clear the completion flag or the rankings. -/
theorem c2_counterexample :
    (handleResetAnimation completedRunState).isAnimationComplete ≠ false
      ∧ (handleResetAnimation completedRunState).rankings ≠ [] := by
  constructor
  · simp [handleResetAnimation, completedRunState]
  · simp [handleResetAnimation, completedRunState]

/-- C2 (amended): reset() from any state sets the phase to idle, zeroes the
accumulated elapsed time, nulls both clock refs and empties the per-curve
elapsed-time records, but it leaves the completion flag, the ranking list
and the previous-ranking list unchanged. -/
theorem c2_reset_behavior :
    ∀ s : DemoState,
      (handleResetAnimation s).animationState = Phase.idle
        ∧ (handleResetAnimation s).pausedElapsedTime = 0
        ∧ (handleResetAnimation s).elapsedTimes = []
        ∧ (handleResetAnimation s).startTime = none
        ∧ (handleResetAnimation s).lastTimestamp = none
        ∧ (handleResetAnimation s).isAnimationComplete = s.isAnimationComplete
        ∧ (handleResetAnimation s).rankings = s.rankings
        ∧ (handleResetAnimation s).prevRankings = s.prevRankings := by
  intro s
  simp [handleResetAnimation]

/-- The ref initialisation at the top of drawFrame does not change the phase. -/
theorem frameInit_animationState (s : DemoState) (t : ℚ) :
    (frameInit s t).animationState = s.animationState := by
  unfold frameInit
  split <;> rfl

/-- The ref initialisation at the top of drawFrame does not change the
accumulated elapsed time. -/
theorem frameInit_pausedElapsedTime (s : DemoState) (t : ℚ) :
    (frameInit s t).pausedElapsedTime = s.pausedElapsedTime := by
  unfold frameInit
  split <;> rfl

/-- The ref initialisation at the top of drawFrame does not change the
cycloid parameter. -/
theorem frameInit_cycloidParameter (s : DemoState) (t : ℚ) :
    (frameInit s t).cycloidParameter = s.cycloidParameter := by
  unfold frameInit
  split <;> rfl

/-- While the phase is not running, drawFrame reads the frozen accumulated
time. -/
theorem frameElapsed_not_running (s : DemoState) (t : ℚ)
    (h : s.animationState ≠ Phase.running) :
    frameElapsed s t = s.pausedElapsedTime := by
  unfold frameElapsed
  rw [if_neg h]

/-- Progress at elapsed time 0 is 0 for every duration. -/
theorem jsProgress_zero (d : ℚ) : jsProgress 0 d = 0 := by
  unfold jsProgress
  rw [zero_div]
  exact min_eq_left zero_le_one

/-- A concrete paused-mid-run state: a run was started, advanced to one
simulated second, and then paused. -/
def pausedMidRunState : DemoState :=
  { initialState with animationState := Phase.paused, pausedElapsedTime := 1,
                      startTime := some 0, lastTimestamp := some 500 }

/-- C3 counterexample: a frame rendered in the paused state with one
accumulated simulated second draws the Brachistochrone marker at progress
1/2, a mid-animation progress-derived point, although the phase is not
running. -/
theorem c3_counterexample :
    pausedMidRunState.animationState ≠ Phase.running
      ∧ ("Brachistochrone", (1:ℚ)/2) ∈ drawFrameMarkers pausedMidRunState 5000
      ∧ (1:ℚ)/2 ≠ 0 := by
  refine ⟨by simp [pausedMidRunState, initialState], ?_, by norm_num⟩
  have he : frameElapsed (frameInit pausedMidRunState 5000) 5000 = 1 := by
    rw [frameElapsed_not_running, frameInit_pausedElapsedTime]
    · rfl
    · rw [frameInit_animationState]
      simp [pausedMidRunState, initialState]
  unfold drawFrameMarkers
  rw [he]
  refine List.mem_append_left _ (List.mem_append_right _ ?_)
  have hp : jsProgress 1 2 = 1/2 := by
    unfold jsProgress
    norm_num
  simp only [movingMarkers, pausedMidRunState, initialState, curves, List.map_cons,
    List.mem_cons]
  left
  rw [hp]

/-- C3 (amended): while the phase is not running a frame draws, for every
curve, a start marker at progress 0 (the static pass) and two further
markers at the frozen progress min(pausedElapsedTime / duration, 1) (the
animated-ball loop and the redraw in the elapsed-times update); every
marker sits at progress 0 only in the special case that the accumulated
elapsed time is 0, so a paused mid-run frame does show mid-animation
points. -/
theorem c3_nonrunning_markers :
    ∀ (s : DemoState) (t : ℚ), s.animationState ≠ Phase.running →
      drawFrameMarkers s t
          = (curves s.cycloidParameter).map (fun c => (c.1, 0))
            ++ movingMarkers s.cycloidParameter s.pausedElapsedTime
            ++ movingMarkers s.cycloidParameter s.pausedElapsedTime
        ∧ (s.pausedElapsedTime = 0 → ∀ m ∈ drawFrameMarkers s t, m.2 = 0) := by
  intro s t h
  have he : frameElapsed (frameInit s t) t = s.pausedElapsedTime := by
    rw [frameElapsed_not_running, frameInit_pausedElapsedTime]
    rw [frameInit_animationState]
    exact h
  have hmk : drawFrameMarkers s t
      = (curves s.cycloidParameter).map (fun c => (c.1, 0))
        ++ movingMarkers s.cycloidParameter s.pausedElapsedTime
        ++ movingMarkers s.cycloidParameter s.pausedElapsedTime := by
    unfold drawFrameMarkers
    rw [he]
    unfold staticMarkers
    rw [if_pos h]
  refine ⟨hmk, ?_⟩
  intro h0 m hm
  rw [hmk] at hm
  rcases List.mem_append.mp hm with hm' | hm'
  · rcases List.mem_append.mp hm' with hs | hmov
    · rcases List.mem_map.mp hs with ⟨c, _, rfl⟩
      rfl
    · rcases List.mem_map.mp hmov with ⟨c, _, rfl⟩
      rw [h0] at *
      exact jsProgress_zero c.2
  · rcases List.mem_map.mp hm' with ⟨c, _, rfl⟩
    rw [h0] at *
    exact jsProgress_zero c.2

/-- A freshly paused state: paused before any simulated time accumulated. -/
def freshPausedState : DemoState :=
  { initialState with animationState := Phase.paused }

/-- C3 witness: the amended statement instantiated at a concrete
non-running state. -/
theorem c3_witness :
    drawFrameMarkers freshPausedState 0
        = (curves freshPausedState.cycloidParameter).map (fun c => (c.1, 0))
          ++ movingMarkers freshPausedState.cycloidParameter
              freshPausedState.pausedElapsedTime
          ++ movingMarkers freshPausedState.cycloidParameter
              freshPausedState.pausedElapsedTime
      ∧ (freshPausedState.pausedElapsedTime = 0 →
          ∀ m ∈ drawFrameMarkers freshPausedState 0, m.2 = 0) :=
  c3_nonrunning_markers freshPausedState 0
    (by simp [freshPausedState, initialState])

/-- A concrete running state mid-run. -/
def runningState : DemoState :=
  { initialState with animationState := Phase.running, startTime := some 0,
                      lastTimestamp := some 500 }

/-- C4 counterexample: with the animation running and the cycloid parameter
at 1/5, applying the parameter setter with 1/2 keeps the phase running and
immediately changes the Parametric Cycloid duration used by the next frame
from 12/5 to 3; the change is neither rejected nor deferred. -/
theorem c4_counterexample :
    runningState.animationState = Phase.running
      ∧ (setCycloidParameter runningState (1/2)).animationState = Phase.running
      ∧ curveTime runningState.cycloidParameter "Parametric Cycloid" = 12/5
      ∧ curveTime (setCycloidParameter runningState (1/2)).cycloidParameter
          "Parametric Cycloid" = 3
      ∧ (12:ℚ)/5 ≠ 3 := by
  refine ⟨rfl, rfl, ?_, ?_, by norm_num⟩
  · simp [curveTime, curves, runningState, initialState]
    norm_num
  · simp [curveTime, curves, setCycloidParameter, runningState, initialState]
    norm_num

/-- C4 (amended): the cycloid-parameter setter stores the new value
unconditionally, in every phase including running; the phase is untouched
and the Parametric Cycloid duration the frame computations use becomes
2 * (1 + v) immediately. -/
theorem c4_parameter_applies_immediately :
    ∀ (s : DemoState) (v : ℚ),
      (setCycloidParameter s v).animationState = s.animationState
        ∧ (setCycloidParameter s v).cycloidParameter = v
        ∧ curveTime (setCycloidParameter s v).cycloidParameter
            "Parametric Cycloid" = 2 * (1 + v) := by
  intro s v
  refine ⟨rfl, rfl, ?_⟩
  simp [curveTime, curves, setCycloidParameter]

/-- C5 counterexample: with the completion flag set, the entry
Brachistochrone at rank index 0 whose previous rank index was 1 carries no
transition marker, although its rank index differs from the previous one;
the claimed equivalence fails. -/
theorem c5_counterexample :
    transitionMarker true ["Straight Line", "Brachistochrone"] "Brachistochrone" 0
        = none
      ∧ jsIndexOf ["Straight Line", "Brachistochrone"] "Brachistochrone" = 1
      ∧ (1:ℤ) ≠ 0 := by
  refine ⟨?_, by decide, by decide⟩
  decide

/-- C5 (amended): an entry at rank index i carries a transition marker iff
the completion flag is clear and the JavaScript indexOf of its name in the
retained previous ranking differs from i (names absent from the previous
ranking have indexOf -1 and therefore always carry a marker); the marker is
"advanced" exactly when the previous index exceeds i, "declined" exactly
when it is below i (including the absent case), and when the completion
flag is set no entry carries a marker regardless of its rank change. -/
theorem c5_marker_characterization :
    ∀ (c : Bool) (prev : List String) (label : String) (i : ℕ),
      (transitionMarker c prev label i = some RankMove.advanced
          ↔ c = false ∧ (i:ℤ) < jsIndexOf prev label)
        ∧ (transitionMarker c prev label i = some RankMove.declined
            ↔ c = false ∧ jsIndexOf prev label < (i:ℤ))
        ∧ (transitionMarker c prev label i = none
            ↔ c = true ∨ jsIndexOf prev label = (i:ℤ)) := by
  intro c prev label i
  simp only [transitionMarker]
  split_ifs with h1 h2 <;> cases c <;> simp_all <;> omega

/-- C6 (confirmed): on any frame where a curve's progress reaches 1 (its
duration is positive and the elapsed time has reached or overshot it), the
displayed time string is the nominal duration formatted with two decimals,
not the live elapsed time; in particular the Straight Line entry formats to
"2.50" and the Brachistochrone entry to "2.00" for every parameter value. -/
theorem c6_completion_time_frozen (e timeVal : ℚ) (hpos : 0 < timeVal)
    (h : timeVal ≤ e) :
    jsProgress e timeVal = 1
      ∧ displayedTime e timeVal = toFixed2 timeVal
      ∧ (∀ p : ℚ, toFixed2 (curveTime p "Straight Line") = "2.50"
          ∧ toFixed2 (curveTime p "Brachistochrone") = "2.00") := by
  have h1 : (1:ℚ) ≤ e / timeVal := (one_le_div hpos).mpr h
  have hp : jsProgress e timeVal = 1 := by
    unfold jsProgress
    exact min_eq_right h1
  refine ⟨hp, ?_, ?_⟩
  · unfold displayedTime
    rw [hp]
    simp
  · intro p
    constructor
    · have hsl : curveTime p "Straight Line" = 5/2 := by simp [curveTime, curves]
      rw [hsl]
      exact toFixed2_five_halves
    · have hbr : curveTime p "Brachistochrone" = 2 := by simp [curveTime, curves]
      rw [hbr]
      exact toFixed2_two

/-- C6 witness: the frozen displayed time at a concrete overshooting
elapsed time (2 simulated seconds against a duration of 1). -/
theorem c6_witness :
    jsProgress 2 1 = 1
      ∧ displayedTime 2 1 = toFixed2 1
      ∧ (∀ p : ℚ, toFixed2 (curveTime p "Straight Line") = "2.50"
          ∧ toFixed2 (curveTime p "Brachistochrone") = "2.00") :=
  c6_completion_time_frozen 2 1 one_pos one_le_two

/-- C7 (confirmed): pausing, redrawing once while paused, resuming and then
rendering the first post-resume frame yields exactly the elapsed time that
was read at pause, which is the frozen accumulated time; resume nulls the
clock baseline, so the first post-resume delta is computed against the new
frame's own timestamp and no time is accumulated over the pause gap. -/
theorem c7_resume_no_jump :
    ∀ (s : DemoState) (t₀ t : ℚ),
      frameElapsed
          (frameInit
            (handleResumeAnimation (frameInit (handlePauseAnimation s) t₀)) t) t
          = frameElapsed (frameInit (handlePauseAnimation s) t₀) t₀
        ∧ frameElapsed (frameInit (handlePauseAnimation s) t₀) t₀
            = s.pausedElapsedTime := by
  intro s t₀ t
  rcases hst : s.startTime with _ | x <;>
    simp [frameInit, handlePauseAnimation, handleResumeAnimation, frameElapsed,
      jsOr, hst]

/-- A concrete running state whose last observed wall-clock timestamp lies
in the future of the next frame's timestamp (a non-monotonic clock). -/
def backwardClockState : DemoState :=
  { initialState with animationState := Phase.running, animationSpeed := 1,
                      startTime := some 0, lastTimestamp := some 2000 }

/-- C8 counterexample: a frame whose timestamp (1000) is behind the stored
last timestamp (2000) produces elapsed time -1, a negative accumulated
time, so the engine is not protected against non-monotonic wall-clock
deltas. -/
theorem c8_counterexample :
    frameElapsed (frameInit backwardClockState 1000) 1000 = -1
      ∧ (-1:ℚ) < 0 := by
  constructor
  · have hfi : frameInit backwardClockState 1000 = backwardClockState := by
      unfold frameInit
      rw [if_neg]
      simp [backwardClockState]
    rw [hfi]
    simp [frameElapsed, backwardClockState, initialState, jsOr]
    norm_num
  · norm_num

/-- C8 (amended): provided the frame timestamps are monotone (the stored
last timestamp does not exceed the frame's timestamp) and the speed
multiplier is non-negative, a frame never decreases the elapsed time below
the accumulated value, the elapsed time stays non-negative when it was, and
every curve's progress is non-decreasing; for a backward wall-clock delta,
however, the elapsed time can become negative (no clamping exists). -/
theorem c8_monotone_under_monotone_clock :
    ∀ (s : DemoState) (t : ℚ),
      0 ≤ s.pausedElapsedTime → 0 ≤ s.animationSpeed →
      (∀ x, s.lastTimestamp = some x → x ≤ t) →
      s.pausedElapsedTime ≤ frameElapsed (frameInit s t) t
        ∧ 0 ≤ frameElapsed (frameInit s t) t
        ∧ ∀ d : ℚ, 0 < d →
            jsProgress s.pausedElapsedTime d
              ≤ jsProgress (frameElapsed (frameInit s t) t) d := by
  intro s t hp hsp hlast
  have hfi_p : (frameInit s t).pausedElapsedTime = s.pausedElapsedTime :=
    frameInit_pausedElapsedTime s t
  have hfi_sp : (frameInit s t).animationSpeed = s.animationSpeed := by
    unfold frameInit
    split <;> rfl
  have hL : jsOr (frameInit s t).lastTimestamp t ≤ t := by
    unfold frameInit
    split
    · simp [jsOr]
    · rcases hlt : s.lastTimestamp with _ | x
      · simp [jsOr]
      · simp only [jsOr]
        split
        · exact le_rfl
        · exact hlast x hlt
  have key : s.pausedElapsedTime ≤ frameElapsed (frameInit s t) t := by
    unfold frameElapsed
    split
    · rw [hfi_p, hfi_sp]
      have hδ : 0 ≤ t - jsOr (frameInit s t).lastTimestamp t := sub_nonneg.mpr hL
      have hterm : 0 ≤ (t - jsOr (frameInit s t).lastTimestamp t) / 1000
          * s.animationSpeed :=
        mul_nonneg (div_nonneg hδ (by norm_num)) hsp
      linarith
    · rw [hfi_p]
  refine ⟨key, le_trans hp key, ?_⟩
  intro d hd
  unfold jsProgress
  exact min_le_min ((div_le_div_iff_of_pos_right hd).mpr key) le_rfl

/-- A fresh running state with unit speed and no stored timestamp. -/
def monotoneClockState : DemoState :=
  { initialState with animationState := Phase.running, animationSpeed := 1 }

/-- C8 witness: the amended monotonicity statement instantiated at a
concrete running state and frame timestamp 7. -/
theorem c8_witness :
    monotoneClockState.pausedElapsedTime
        ≤ frameElapsed (frameInit monotoneClockState 7) 7
      ∧ 0 ≤ frameElapsed (frameInit monotoneClockState 7) 7
      ∧ ∀ d : ℚ, 0 < d →
          jsProgress monotoneClockState.pausedElapsedTime d
            ≤ jsProgress (frameElapsed (frameInit monotoneClockState 7) 7) d :=
  c8_monotone_under_monotone_clock monotoneClockState 7 le_rfl zero_le_one
    (fun x hx => by simp [monotoneClockState, initialState] at hx)

/-- A running state with a stored negative speed multiplier mid-run. -/
def runningNegSpeedState : DemoState :=
  { initialState with animationState := Phase.running, animationSpeed := -1,
                      pausedElapsedTime := 1, startTime := some 0,
                      lastTimestamp := some 1000 }

/-- C9 counterexample: the engine's speed setter stores -1 unchanged (it is
neither a no-op preserving the previous multiplier 1/2 nor clamped to a
positive value), and a frame computed with the stored -1 moves the elapsed
time backwards from 1 to 0, so the effective multiplier used for time
deltas is not always positive. -/
theorem c9_counterexample :
    (setAnimationSpeed initialState (-1)).animationSpeed = -1
      ∧ ¬ (0 < (setAnimationSpeed initialState (-1)).animationSpeed)
      ∧ (setAnimationSpeed initialState (-1)).animationSpeed
          ≠ initialState.animationSpeed
      ∧ frameElapsed (frameInit runningNegSpeedState 2000) 2000 = 0
      ∧ (0:ℚ) < 1 := by
  refine ⟨rfl, by norm_num [setAnimationSpeed, initialState], ?_, ?_, by norm_num⟩
  · norm_num [setAnimationSpeed, initialState]
  · have hfi : frameInit runningNegSpeedState 2000 = runningNegSpeedState := by
      unfold frameInit
      rw [if_neg]
      simp [runningNegSpeedState]
    rw [hfi]
    simp [frameElapsed, runningNegSpeedState, initialState, jsOr]
    norm_num

/-- C9 (amended): the engine's speed setter performs no validation at all:
it stores any requested value, including non-positive ones, unchanged, and
touches neither the phase nor the accumulated time; only the UI slider's
minimum of 0.1 keeps interactive input positive, and a stored non-positive
multiplier is used as-is in the next frame's delta computation. -/
theorem c9_speed_setter_unvalidated :
    ∀ (s : DemoState) (v : ℚ),
      (setAnimationSpeed s v).animationSpeed = v
        ∧ (setAnimationSpeed s v).animationState = s.animationState
        ∧ (setAnimationSpeed s v).pausedElapsedTime = s.pausedElapsedTime := by
  intro s v
  exact ⟨rfl, rfl, rfl⟩

/-- C10 (confirmed): for every parameter value in [0,1] the Parametric
Cycloid's nominal duration is the plain Brachistochrone duration (2.0)
times (1 + parameter), and at parameter 0 its position function coincides
with the plain Brachistochrone/cycloid position function at every progress
value. -/
theorem c10_parametric_curve_relation (p : ℚ) (h0 : 0 ≤ p) (h1 : p ≤ 1) :
    curveTime p "Parametric Cycloid" = curveTime p "Brachistochrone" * (1 + p)
      ∧ ∀ t : ℝ, parametricCycloidFunc 0 t = brachistochroneFunc t := by
  constructor
  · simp [curveTime, curves]
  · intro t
    unfold parametricCycloidFunc brachistochroneFunc
    rw [Prod.mk.injEq]
    have hπ : (Real.pi : ℝ) ≠ 0 := Real.pi_ne_zero
    constructor
    · rw [mul_comm t Real.pi]
      field_simp
      ring
    · rw [mul_comm t Real.pi]
      ring

/-- C10 witness: the duration and position-function relation at the
concrete parameter 0. -/
theorem c10_witness :
    curveTime 0 "Parametric Cycloid" = curveTime 0 "Brachistochrone" * (1 + 0)
      ∧ ∀ t : ℝ, parametricCycloidFunc 0 t = brachistochroneFunc t :=
  c10_parametric_curve_relation 0 le_rfl zero_le_one

end BrachDemo
